import Mathlib

/-!
Verification development for the AR Surface Plane Tracking & Procedural
Surface Engine (WebXR / three.js application).

The embedding below is a shallow model of the per-frame core of the
application: the plane lifecycle manager (`updatePlanes`), the reticle and
hit-test controller (`handleHitTest`), object placement (`onSelect`), and the
session-end teardown handler registered in `startAR`.  Scalars that are
IEEE doubles in the source are modelled as rationals; the scene graph is
modelled as the explicit collections the core mutates (the plane map, the
list of plane-mesh identities attached to the scene, the reticle singleton,
and the list of placed objects).  Asynchronous hit-test-source acquisition is
modelled by a per-frame flag saying whether the pending response has landed
before this frame's animation callback.
-/

namespace AR

/-- A 2D vector (used for texture coordinates). -/
structure Vec2 where
  x : ℚ
  y : ℚ
deriving DecidableEq, Repr

/-- A 3D vector. -/
structure Vec3 where
  x : ℚ
  y : ℚ
  z : ℚ
deriving DecidableEq, Repr

/-- A 3x3 matrix, row major: the rotation part of a rigid pose
(three.js `Matrix4.extractRotation` of a rigid transform). -/
structure Mat3 where
  m00 : ℚ
  m01 : ℚ
  m02 : ℚ
  m10 : ℚ
  m11 : ℚ
  m12 : ℚ
  m20 : ℚ
  m21 : ℚ
  m22 : ℚ
deriving DecidableEq, Repr

/-- Matrix-vector application (three.js `Vector3.applyMatrix4` restricted to
the rotation part of a rigid transform). -/
def applyMat3 (m : Mat3) (v : Vec3) : Vec3 :=
  ⟨m.m00 * v.x + m.m01 * v.y + m.m02 * v.z,
   m.m10 * v.x + m.m11 * v.y + m.m12 * v.z,
   m.m20 * v.x + m.m21 * v.y + m.m22 * v.z⟩

/-- A rigid world pose: rotation part and translation part of the 4x4 matrix
(`pose.transform.matrix` of an `XRPose`). -/
structure Pose where
  rot : Mat3
  pos : Vec3
deriving DecidableEq, Repr

/-- The reference up-vector `new THREE.Vector3(0, 1, 0)` transformed through
the rotation extracted from the pose matrix
(`new THREE.Vector3(0,1,0).applyMatrix4(rotationMatrix)`). -/
def upVector (p : Pose) : Vec3 :=
  applyMat3 p.rot ⟨0, 1, 0⟩

/-- The vertical component `up.y` of the rotated up-vector. -/
def upY (p : Pose) : ℚ :=
  (upVector p).y

/-- Classification of a hit pose, as surfaced by the reticle colour choice. -/
inductive HitOrientation where
  | Horizontal
  | Vertical
deriving DecidableEq, Repr

/-- Classification of a hit pose: `if (Math.abs(up.y) > 0.5)` the surface is
horizontal, else vertical (source: `handleHitTest`). -/
def classifyPose (p : Pose) : HitOrientation :=
  if 1/2 < |upY p| then .Horizontal else .Vertical

/-- Reticle colour set from the classification: `0x00ff00` (green) for a
horizontal hit, `0x00ffff` (cyan) for a vertical one. -/
def reticleColorFor : HitOrientation → ℕ
  | .Horizontal => 0x00ff00
  | .Vertical => 0x00ffff

/-- Orientation tag reported by the sensing subsystem for a detected plane
(`plane.orientation`, a string in the source). -/
inductive XROrientation where
  | horizontal
  | vertical
deriving DecidableEq, Repr

/-- A point of a plane's boundary polygon; the source reads the `x` and `z`
components of each polygon point. -/
structure PolyPoint where
  x : ℚ
  z : ℚ
deriving DecidableEq, Repr

/-- One detected plane as reported by the sensing subsystem for one frame:
stable identity (the `XRPlane` object identity keying the `planes` map),
orientation, boundary polygon, monotone change-stamp (`plane.lastChangedTime`)
and the world pose `frame.getPose(plane.planeSpace, referenceSpace)`,
which may be absent for a frame. -/
structure PlaneReport where
  id : ℕ
  orientation : XROrientation
  lastChangedTime : ℤ
  polygon : List PolyPoint
  pose : Option Pose
deriving DecidableEq, Repr

/-- One animation-loop frame's external input: the detected-planes report
(absent when the feature is unsupported), whether the pending asynchronous
`requestHitTestSource` response has landed before this frame's callback, and
the ranked hit-test results `frame.getHitTestResults(hitTestSource)`. -/
structure XRFrameInput where
  detectedPlanes : Option (List PlaneReport)
  sourceArrives : Bool
  hits : List Pose
deriving DecidableEq, Repr

/-- The two cached procedural tile textures created at initialisation
(`createTileTexture` results stored in `a.floorTexture` / `a.wallTexture`). -/
inductive TextureKind where
  | floorTexture
  | wallTexture
deriving DecidableEq, Repr

/-- Material parameters of a plane mesh, as configured at entity creation
(source: the `MeshStandardMaterial` literal in `updatePlanes`). -/
structure Material where
  map : TextureKind
  transparent : Bool
  opacity : ℚ
  doubleSide : Bool
  roughness : ℚ
  metalness : ℚ
  polygonOffset : Bool
  polygonOffsetFactor : ℚ
deriving DecidableEq, Repr

/-- The material built for a newly observed plane: texture chosen from the
orientation reported at first sighting (`plane.orientation === "horizontal" ?
a.floorTexture : a.wallTexture`), opacity 0.7, transparent, double sided,
roughness 0.5, metalness 0.1, polygon offset factor -1. -/
def materialFor (o : XROrientation) : Material where
  map := match o with
    | .horizontal => .floorTexture
    | .vertical => .wallTexture
  transparent := true
  opacity := 7/10
  doubleSide := true
  roughness := 1/2
  metalness := 1/10
  polygonOffset := true
  polygonOffsetFactor := -1

/-- Renderable geometry of a plane mesh.  `empty` is the placeholder
`new THREE.BufferGeometry()` (no position attribute); `infinitePlane` is the
1000x1000 `PlaneGeometry` floor quad; `shape` is a `ShapeGeometry`
triangulation of a boundary polygon, recording its position buffer and its
texture-coordinate buffer (the triangulation index list of a `ShapeGeometry`
is a deterministic function of the position buffer and is not modelled). -/
inductive Geometry where
  | empty
  | infinitePlane
  | shape (positions : List Vec3) (uvs : List Vec2)
deriving DecidableEq, Repr

/-- Position buffer of the infinite floor quad: `PlaneGeometry(1000, 1000)`
(corner vertices at +-500) followed by `rotateX(-PI/2)`, which maps a vertex
(x, y, 0) to (x, 0, -y). -/
def infinitePositions : List Vec3 :=
  [⟨-500, 0, -500⟩, ⟨500, 0, -500⟩, ⟨-500, 0, 500⟩, ⟨500, 0, 500⟩]

/-- UV buffer of the infinite floor quad: the unit-square UVs of
`PlaneGeometry` scaled by 1000 in both axes (`uv.setXY(i, u*1000, v*1000)`). -/
def infiniteUVs : List Vec2 :=
  [⟨0, 1000⟩, ⟨1000, 1000⟩, ⟨0, 0⟩, ⟨1000, 0⟩]

/-- Position buffer of the bounded `ShapeGeometry` built from a boundary
polygon: the shape contour is `moveTo/lineTo(point.x, point.z)`, giving
pre-rotation vertices (x, z, 0); `rotateX(-PI/2)` then maps (x, y, 0) to
(x, 0, -y), so the vertex for polygon point (x, z) is (x, 0, -z). -/
def boundedPositions (poly : List PolyPoint) : List Vec3 :=
  poly.map fun p => ⟨p.x, 0, -p.z⟩

/-- UV buffer assigned to a wall mesh in the first variant's `updatePlanes`:
for each vertex, `uv = (position.x, position.z)` read after the rotation,
hence (x, -z) for polygon point (x, z) (world-aligned planar projection). -/
def wallUVs (poly : List PolyPoint) : List Vec2 :=
  poly.map fun p => ⟨p.x, -p.z⟩

/-- Default UV buffer of a `ShapeGeometry`: the shape-space coordinates of
each contour point, i.e. (x, z) for polygon point (x, z). -/
def shapeDefaultUVs (poly : List PolyPoint) : List Vec2 :=
  poly.map fun p => ⟨p.x, p.z⟩

/-- UV buffer assigned to a horizontal mesh in the grid variant's
`updatePlanes`: world-aligned projection scaled by 5 tiles per metre,
`uv = (position.x * 5, position.z * 5)` read after the rotation. -/
def gridUVs (poly : List PolyPoint) : List Vec2 :=
  poly.map fun p => ⟨p.x * 5, -p.z * 5⟩

/-- Position buffer of a geometry (the `position` attribute contents;
the placeholder `BufferGeometry` has none). -/
def Geometry.positions : Geometry → List Vec3
  | .empty => []
  | .infinitePlane => infinitePositions
  | .shape ps _ => ps

/-- UV buffer of a geometry. -/
def Geometry.uvs : Geometry → List Vec2
  | .empty => []
  | .infinitePlane => infiniteUVs
  | .shape _ uvs => uvs

/-- A plane entity owned by the plane lifecycle manager: the mesh stored in
the `planes` map.  `lastChangedTime` is `planeMesh.userData.lastChangedTime`
(initialised to -1); `matrix` is the mesh world matrix; `rebuildCount`
makes the dispose-and-replace side effect of a geometry rebuild explicit
(it is incremented exactly when the source disposes the previous geometry
buffer and installs a new one). -/
structure PlaneEntity where
  material : Material
  geometry : Geometry
  lastChangedTime : ℤ
  matrix : Pose
  visible : Bool
  rebuildCount : ℕ
deriving DecidableEq, Repr

/-- The entity allocated at first sighting of a plane: material from the
reported orientation, placeholder geometry, change-stamp -1. -/
def newPlaneEntity (o : XROrientation) (pose : Pose) : PlaneEntity where
  material := materialFor o
  geometry := .empty
  lastChangedTime := -1
  matrix := pose
  visible := true
  rebuildCount := 0

/-- Geometry update for a horizontal (floor) plane: create the infinite
1000x1000 quad once — the source rebuilds only when the current geometry has
no position attribute or is not a `PlaneGeometry` — and never regenerate it
from polygon changes while it stays infinite. -/
def updateInfiniteGeometry (e : PlaneEntity) : PlaneEntity :=
  match e.geometry with
  | .infinitePlane => e
  | _ => { e with geometry := .infinitePlane, rebuildCount := e.rebuildCount + 1 }

/-- Geometry update for a vertical (wall) plane in the first variant:
rebuild from the boundary polygon only when the reported change-stamp
differs from the last-applied one; the rebuild records the new stamp,
disposes the previous geometry and installs the `ShapeGeometry` with
world-aligned UVs. -/
def updateBoundedGeometry (e : PlaneEntity) (stamp : ℤ) (poly : List PolyPoint) :
    PlaneEntity :=
  if stamp ≠ e.lastChangedTime then
    { e with
      lastChangedTime := stamp
      geometry := .shape (boundedPositions poly) (wallUVs poly)
      rebuildCount := e.rebuildCount + 1 }
  else e

/-- Geometry update in the grid variant's `updatePlanes` (applied to every
plane): same change-stamp guard, building the bounded `ShapeGeometry`; the
world-aligned scaled UV remapping is applied only when the plane is
horizontal, vertical planes keep the default shape UVs. -/
def updatePlaneGeometryGrid (e : PlaneEntity) (isHorizontal : Bool) (stamp : ℤ)
    (poly : List PolyPoint) : PlaneEntity :=
  if stamp ≠ e.lastChangedTime then
    { e with
      lastChangedTime := stamp
      geometry := .shape (boundedPositions poly)
        (if isHorizontal then gridUVs poly else shapeDefaultUVs poly)
      rebuildCount := e.rebuildCount + 1 }
  else e

/-- The geometry step of `updatePlanes` for one reported plane:
horizontal planes get the infinite floor quad, vertical planes the bounded
polygon rebuild guarded by the change-stamp. -/
def applyGeometryUpdate (e : PlaneEntity) (r : PlaneReport) : PlaneEntity :=
  match r.orientation with
  | .horizontal => updateInfiniteGeometry e
  | .vertical => updateBoundedGeometry e r.lastChangedTime r.polygon

/-- The reticle singleton: visibility flag, world matrix and material
colour (initially white `0xffffff`, invisible). -/
structure Reticle where
  visible : Bool
  matrix : Pose
  color : ℕ
deriving DecidableEq, Repr

/-- Placement kind selected in the (external) UI and sampled through
`modeRef.current` at each selection event. -/
inductive Mode where
  | Tile
  | Textile
deriving DecidableEq, Repr

/-- An object placed by a selection event: world position copied from the
reticle matrix translation, orientation copied from its rotation part (the
source stores it as the quaternion `setFromRotationMatrix(reticle.matrix)`,
a deterministic function of this rotation part), and the mode-chosen
colour. Never mutated after creation. -/
structure PlacedObject where
  position : Vec3
  rotation : Mat3
  color : ℕ
deriving DecidableEq, Repr

/-- Marker colour chosen from the sampled mode:
pure red `0xff0000` for Tile, pure blue `0x0000ff` otherwise. -/
def placedColor (m : Mode) : ℕ :=
  if m = .Tile then 0xff0000 else 0x0000ff

/-- The mutable core state held in `app.current`: the plane map (association
list keyed by plane identity, in insertion order, matching a JS `Map`), the
identities whose plane meshes are currently attached to the scene graph, the
reticle, the hit-test source state, and the placed objects added to the
scene by `onSelect`. -/
structure AppState where
  planes : List (ℕ × PlaneEntity)
  scenePlaneIds : List ℕ
  reticle : Reticle
  hitTestSource : Bool
  hitTestSourceRequested : Bool
  items : List PlacedObject
deriving DecidableEq, Repr

/-- Identity pose (the initial mesh matrix). -/
def idPose : Pose :=
  ⟨⟨1, 0, 0, 0, 1, 0, 0, 0, 1⟩, ⟨0, 0, 0⟩⟩

/-- Core state at initialisation / session start: empty plane map, invisible
white reticle, no hit-test source, nothing requested, nothing placed. -/
def initState : AppState where
  planes := []
  scenePlaneIds := []
  reticle := { visible := false, matrix := idPose, color := 0xffffff }
  hitTestSource := false
  hitTestSourceRequested := false
  items := []

/-- Lookup in the plane map (`a.planes.get(plane)`). -/
def lookupPlane : List (ℕ × PlaneEntity) → ℕ → Option PlaneEntity
  | [], _ => none
  | (k, v) :: rest, i => if k = i then some v else lookupPlane rest i

/-- Insert-or-update in the plane map (`a.planes.set(plane, planeMesh)`; a JS
`Map` updates an existing key in place and appends a new key). -/
def setPlane : List (ℕ × PlaneEntity) → ℕ → PlaneEntity → List (ℕ × PlaneEntity)
  | [], i, e => [(i, e)]
  | (k, v) :: rest, i, e =>
      if k = i then (k, e) :: rest else (k, v) :: setPlane rest i e

/-- Body of the `detectedPlanes.forEach` loop in `updatePlanes` for one
reported plane: skip the entity entirely when the frame has no pose for it;
otherwise create the entity on first sighting (adding its mesh to the scene
and to the map), run the orientation-dependent geometry update, and
unconditionally apply the frame pose and set the mesh visible. -/
def processPlane (s : AppState) (r : PlaneReport) : AppState :=
  match r.pose with
  | none => s
  | some pose =>
    match lookupPlane s.planes r.id with
    | none =>
      let e := applyGeometryUpdate (newPlaneEntity r.orientation idPose) r
      { s with
        planes := setPlane s.planes r.id { e with matrix := pose, visible := true }
        scenePlaneIds := s.scenePlaneIds ++ [r.id] }
    | some e0 =>
      let e := applyGeometryUpdate e0 r
      { s with
        planes := setPlane s.planes r.id { e with matrix := pose, visible := true } }

/-- The plane lifecycle step of one frame (`updatePlanes(frame, a)`):
treat an absent report as a no-op and process each reported plane in order.
No plane entity is ever removed here. -/
def updatePlanes (f : XRFrameInput) (s : AppState) : AppState :=
  match f.detectedPlanes with
  | none => s
  | some rs => rs.foldl processPlane s

/-- The reticle / hit-test step of one frame (`handleHitTest(a, frame)`):
issue the (asynchronous) hit-test-source request once per session; the
source becomes available when the pending response has landed.  With a
source, a non-empty result list makes the reticle visible at the top-ranked
pose and recolours it from the pose classification; an empty result list
hides the reticle.  Without a source the reticle is left untouched. -/
def handleHitTest (s : AppState) (f : XRFrameInput) : AppState :=
  let src := s.hitTestSource || (s.hitTestSourceRequested && f.sourceArrives)
  let s1 := { s with hitTestSourceRequested := true, hitTestSource := src }
  if src then
    match f.hits with
    | hit :: _ =>
      { s1 with
        reticle :=
          { visible := true
            matrix := hit
            color := reticleColorFor (classifyPose hit) } }
    | [] => { s1 with reticle := { s1.reticle with visible := false } }
  else s1

/-- One animation-loop frame (`setAnimationLoop` body with a frame present):
hit-test handling followed by the plane update. -/
def advanceFrame (s : AppState) (f : XRFrameInput) : AppState :=
  updatePlanes f (handleHitTest s f)

/-- A run of consecutive animation-loop frames. -/
def runFrames (s : AppState) (fs : List XRFrameInput) : AppState :=
  fs.foldl advanceFrame s

/-- Selection handler (`onSelect`): while the reticle is visible, create one
marker mesh, copy its position from the reticle matrix translation and its
orientation from the reticle matrix rotation, and add it to the scene;
while invisible, do nothing. -/
def onSelect (s : AppState) (m : Mode) : AppState :=
  if s.reticle.visible then
    { s with
      items := s.items ++
        [{ position := s.reticle.matrix.pos
           rotation := s.reticle.matrix.rot
           color := placedColor m }] }
  else s

/-- The session `end` listener registered in `startAR`: synchronously reset
the hit-test source state, hide the reticle, remove every plane mesh held in
the map from the scene, and clear the map.  In this sequential model the
handler runs to completion before any subsequent frame. -/
def sessionEnd (s : AppState) : AppState :=
  { s with
    hitTestSourceRequested := false
    hitTestSource := false
    reticle := { s.reticle with visible := false }
    scenePlaneIds := s.scenePlaneIds.filter fun i => (lookupPlane s.planes i).isNone
    planes := [] }

/-! Concrete inputs used by witnesses and counterexamples. -/

/-- A level pose (identity rotation) at height `y`. -/
def poseAt (y : ℚ) : Pose :=
  ⟨⟨1, 0, 0, 0, 1, 0, 0, 0, 1⟩, ⟨0, y, 0⟩⟩

/-- A hit pose whose rotated up-vector has vertical component 0.51. -/
def poseUp051 : Pose :=
  ⟨⟨1, 0, 0, 0, 51/100, 0, 0, 0, 1⟩, ⟨1, 0, 2⟩⟩

/-- A hit pose whose rotated up-vector has vertical component exactly 0.5. -/
def poseUp050 : Pose :=
  ⟨⟨1, 0, 0, 0, 1/2, 0, 0, 0, 1⟩, ⟨1, 0, 2⟩⟩

/-- A hit pose whose rotated up-vector has vertical component 0.49. -/
def poseUp049 : Pose :=
  ⟨⟨1, 0, 0, 0, 49/100, 0, 0, 0, 1⟩, ⟨1, 0, 2⟩⟩

/-- A unit-triangle boundary polygon (a well-formed polygon). -/
def unitTriangle : List PolyPoint :=
  [⟨0, 0⟩, ⟨1, 0⟩, ⟨0, 1⟩]

/-- A malformed boundary polygon: only two points. -/
def badPoly : List PolyPoint :=
  [⟨0, 0⟩, ⟨1, 1⟩]

/-- A horizontal plane report, identity 0, posed at height 0. -/
def rH0 : PlaneReport :=
  ⟨0, .horizontal, 2, unitTriangle, some (poseAt 0)⟩

/-- A second horizontal plane report, identity 1, posed lower (height -1). -/
def rH1 : PlaneReport :=
  ⟨1, .horizontal, 2, unitTriangle, some (poseAt (-1))⟩

/-- A vertical re-report of identity 0 with a fresh change-stamp. -/
def rV0 : PlaneReport :=
  ⟨0, .vertical, 7, unitTriangle, some (poseAt 2)⟩

/-- A frame reporting two horizontal planes at different heights. -/
def frameTwoHorizontal : XRFrameInput :=
  ⟨some [rH0, rH1], false, []⟩

/-- A frame reporting the single plane `rH0`. -/
def frameOnePlane : XRFrameInput :=
  ⟨some [rH0], false, []⟩

/-- A frame whose detected-planes report is empty (the plane disappeared). -/
def frameEmptyReport : XRFrameInput :=
  ⟨some [], false, []⟩

/-- A frame with no plane data, no source response and no hits (the first
frame of a session, which issues the hit-test source request). -/
def frameNoData : XRFrameInput :=
  ⟨none, false, []⟩

/-- A frame on which the hit-test source response has landed and one hit
with a level pose is returned. -/
def frameWithHit : XRFrameInput :=
  ⟨none, true, [poseAt 0]⟩

/-- A frame re-reporting identity 0 as vertical with a new change-stamp. -/
def frameVerticalRe : XRFrameInput :=
  ⟨some [rV0], false, []⟩

/-- State after one frame that reported the single plane `rH0`. -/
def sOne : AppState :=
  advanceFrame initState frameOnePlane

/-- State after one frame that reported two horizontal planes. -/
def sTwo : AppState :=
  advanceFrame initState frameTwoHorizontal

/-- A bounded wall entity with an installed triangle mesh and stamp 3. -/
def entWall : PlaneEntity where
  material := materialFor .vertical
  geometry := .shape (boundedPositions unitTriangle) (wallUVs unitTriangle)
  lastChangedTime := 3
  matrix := poseAt 0
  visible := true
  rebuildCount := 1

/-- An initial state whose reticle has been made visible at a level pose. -/
def sVisible : AppState :=
  { initState with reticle := { visible := true, matrix := poseAt 0, color := 0xffffff } }

/-- The entity of plane identity 0 in `sOne`: created horizontal, so it has
the floor material and the infinite geometry, still with the initial
change-stamp -1. -/
def entBefore : PlaneEntity where
  material := materialFor .horizontal
  geometry := .infinitePlane
  lastChangedTime := -1
  matrix := poseAt 0
  visible := true
  rebuildCount := 1

/-- The entity of plane identity 0 after `frameVerticalRe` re-reports it as
vertical with change-stamp 7: the geometry was rebuilt from the polygon but
the material is untouched. -/
def entAfter : PlaneEntity where
  material := materialFor .horizontal
  geometry := .shape (boundedPositions unitTriangle) (wallUVs unitTriangle)
  lastChangedTime := 7
  matrix := poseAt 2
  visible := true
  rebuildCount := 2

/-- The entity produced by one `processPlane` step: the previous entity (or a
freshly allocated one) run through the geometry update, with the frame pose
applied and the mesh made visible. -/
def processedEntity (prev : Option PlaneEntity) (r : PlaneReport) (p : Pose) :
    PlaneEntity :=
  { applyGeometryUpdate (prev.getD (newPlaneEntity r.orientation idPose)) r with
    matrix := p, visible := true }

/-! Helper lemmas about the plane map. -/

theorem lookup_setPlane_self (l : List (ℕ × PlaneEntity)) (i : ℕ) (e : PlaneEntity) :
    lookupPlane (setPlane l i e) i = some e := by
  induction l with
  | nil => simp [setPlane, lookupPlane]
  | cons kv rest ih =>
    by_cases h : kv.1 = i
    · simp [setPlane, lookupPlane, h]
    · simp [setPlane, lookupPlane, h, ih]

theorem lookup_setPlane_ne (l : List (ℕ × PlaneEntity)) (k i : ℕ) (e : PlaneEntity)
    (h : k ≠ i) : lookupPlane (setPlane l k e) i = lookupPlane l i := by
  induction l with
  | nil => simp [setPlane, lookupPlane, h]
  | cons kv rest ih =>
    by_cases hk : kv.1 = k
    · simp [setPlane, lookupPlane, hk, h]
    · by_cases hi : kv.1 = i <;> simp [setPlane, lookupPlane, hk, hi, ih, Ne.symm h]

/-! Frame-step structure lemmas: which parts of the state each step leaves
untouched. -/

theorem processPlane_frame_fields (s : AppState) (r : PlaneReport) :
    (processPlane s r).reticle = s.reticle ∧
    (processPlane s r).hitTestSource = s.hitTestSource ∧
    (processPlane s r).hitTestSourceRequested = s.hitTestSourceRequested ∧
    (processPlane s r).items = s.items := by
  unfold processPlane
  cases hp : r.pose with
  | none => exact ⟨rfl, rfl, rfl, rfl⟩
  | some p => cases hl : lookupPlane s.planes r.id <;> exact ⟨rfl, rfl, rfl, rfl⟩

theorem foldl_processPlane_frame_fields (rs : List PlaneReport) :
    ∀ s : AppState,
    ((rs.foldl processPlane s)).reticle = s.reticle ∧
    ((rs.foldl processPlane s)).hitTestSource = s.hitTestSource ∧
    ((rs.foldl processPlane s)).hitTestSourceRequested = s.hitTestSourceRequested ∧
    ((rs.foldl processPlane s)).items = s.items := by
  induction rs with
  | nil => intro s; exact ⟨rfl, rfl, rfl, rfl⟩
  | cons r rs ih =>
    intro s
    have h1 := processPlane_frame_fields s r
    have h2 := ih (processPlane s r)
    rw [List.foldl_cons]
    exact ⟨h2.1.trans h1.1, h2.2.1.trans h1.2.1,
      h2.2.2.1.trans h1.2.2.1, h2.2.2.2.trans h1.2.2.2⟩

theorem updatePlanes_frame_fields (f : XRFrameInput) (s : AppState) :
    (updatePlanes f s).reticle = s.reticle ∧
    (updatePlanes f s).hitTestSource = s.hitTestSource ∧
    (updatePlanes f s).hitTestSourceRequested = s.hitTestSourceRequested ∧
    (updatePlanes f s).items = s.items := by
  unfold updatePlanes
  cases hd : f.detectedPlanes with
  | none => exact ⟨rfl, rfl, rfl, rfl⟩
  | some rs => exact foldl_processPlane_frame_fields rs s

theorem handleHitTest_plane_fields (s : AppState) (f : XRFrameInput) :
    (handleHitTest s f).planes = s.planes ∧
    (handleHitTest s f).scenePlaneIds = s.scenePlaneIds ∧
    (handleHitTest s f).items = s.items := by
  simp only [handleHitTest]
  cases hsrc : (s.hitTestSource || (s.hitTestSourceRequested && f.sourceArrives)) <;>
    cases hh : f.hits <;> exact ⟨rfl, rfl, rfl⟩

theorem handleHitTest_source_eq (s : AppState) (f : XRFrameInput) :
    (handleHitTest s f).hitTestSource
      = (s.hitTestSource || (s.hitTestSourceRequested && f.sourceArrives)) := by
  simp only [handleHitTest]
  cases hsrc : (s.hitTestSource || (s.hitTestSourceRequested && f.sourceArrives)) <;>
    cases hh : f.hits <;> rfl

theorem handleHitTest_reticle_hit (s : AppState) (f : XRFrameInput) (p : Pose)
    (ps : List Pose) (hh : f.hits = p :: ps)
    (hsrc : (s.hitTestSource || (s.hitTestSourceRequested && f.sourceArrives)) = true) :
    (handleHitTest s f).reticle
      = { visible := true, matrix := p, color := reticleColorFor (classifyPose p) } := by
  simp only [handleHitTest, hh, hsrc]
  rfl

theorem handleHitTest_reticle_nohit (s : AppState) (f : XRFrameInput) (hh : f.hits = [])
    (hsrc : (s.hitTestSource || (s.hitTestSourceRequested && f.sourceArrives)) = true) :
    (handleHitTest s f).reticle = { s.reticle with visible := false } := by
  simp only [handleHitTest, hh, hsrc]
  rfl

theorem handleHitTest_reticle_nosrc (s : AppState) (f : XRFrameInput)
    (hsrc : (s.hitTestSource || (s.hitTestSourceRequested && f.sourceArrives)) = false) :
    (handleHitTest s f).reticle = s.reticle := by
  simp only [handleHitTest, hsrc]
  rfl

/-! Plane-map effect lemmas for one processed report and for a whole
report list. -/

theorem processPlane_lookup_ne (s : AppState) (r : PlaneReport) (i : ℕ) (h : r.id ≠ i) :
    lookupPlane (processPlane s r).planes i = lookupPlane s.planes i ∧
    ((i ∈ (processPlane s r).scenePlaneIds) ↔ i ∈ s.scenePlaneIds) := by
  unfold processPlane
  cases hp : r.pose with
  | none => exact ⟨rfl, Iff.rfl⟩
  | some p =>
    cases hl : lookupPlane s.planes r.id with
    | none =>
      refine ⟨lookup_setPlane_ne s.planes r.id i _ h, ?_⟩
      show i ∈ s.scenePlaneIds ++ [r.id] ↔ i ∈ s.scenePlaneIds
      simp [List.mem_append, Ne.symm h]
    | some e0 => exact ⟨lookup_setPlane_ne s.planes r.id i _ h, Iff.rfl⟩

theorem processPlane_lookup_self (s : AppState) (r : PlaneReport) (p : Pose)
    (hp : r.pose = some p) :
    lookupPlane (processPlane s r).planes r.id
      = some (processedEntity (lookupPlane s.planes r.id) r p) := by
  unfold processPlane processedEntity
  rw [hp]
  cases hl : lookupPlane s.planes r.id with
  | none => simp [lookup_setPlane_self]
  | some e0 => simp [lookup_setPlane_self]

theorem foldl_lookup_not_mem (rs : List PlaneReport) :
    ∀ (s : AppState) (i : ℕ), (∀ r ∈ rs, r.id ≠ i) →
    lookupPlane (rs.foldl processPlane s).planes i = lookupPlane s.planes i ∧
    ((i ∈ (rs.foldl processPlane s).scenePlaneIds) ↔ i ∈ s.scenePlaneIds) := by
  induction rs with
  | nil => intro s i _; exact ⟨rfl, Iff.rfl⟩
  | cons r rs ih =>
    intro s i h
    have h1 := processPlane_lookup_ne s r i (h r (by simp))
    have h2 := ih (processPlane s r) i (fun r2 hr2 => h r2 (by simp [hr2]))
    rw [List.foldl_cons]
    exact ⟨h2.1.trans h1.1, h2.2.trans h1.2⟩

theorem foldl_lookup_report (rs : List PlaneReport) :
    ∀ (s : AppState) (r : PlaneReport) (p : Pose),
    (rs.map PlaneReport.id).Nodup → r ∈ rs → r.pose = some p →
    lookupPlane (rs.foldl processPlane s).planes r.id
      = some (processedEntity (lookupPlane s.planes r.id) r p) := by
  induction rs with
  | nil => intro s r p _ hr _; cases hr
  | cons a t ih =>
    intro s r p hnd hr hp
    rw [List.map_cons, List.nodup_cons] at hnd
    rw [List.foldl_cons]
    rcases List.mem_cons.mp hr with rfl | hrt
    · have hnot : ∀ r2 ∈ t, r2.id ≠ r.id := fun r2 h2 he =>
        hnd.1 (by rw [← he]; exact List.mem_map_of_mem PlaneReport.id h2)
      rw [(foldl_lookup_not_mem t (processPlane s r) r.id hnot).1]
      exact processPlane_lookup_self s r p hp
    · have hne : a.id ≠ r.id := fun he =>
        hnd.1 (by rw [he]; exact List.mem_map_of_mem PlaneReport.id hrt)
      rw [ih (processPlane s a) r p hnd.2 hrt hp,
        (processPlane_lookup_ne s a r.id hne).1]

/-! Material and geometry effect lemmas. -/

theorem applyGeometryUpdate_material (e : PlaneEntity) (r : PlaneReport) :
    (applyGeometryUpdate e r).material = e.material := by
  unfold applyGeometryUpdate updateInfiniteGeometry updateBoundedGeometry
  cases ho : r.orientation with
  | horizontal => cases hg : e.geometry <;> rfl
  | vertical => by_cases h : r.lastChangedTime ≠ e.lastChangedTime <;> simp [h]

theorem processedEntity_material (prev : Option PlaneEntity) (r : PlaneReport) (p : Pose) :
    (processedEntity prev r p).material
      = (prev.getD (newPlaneEntity r.orientation idPose)).material := by
  show (applyGeometryUpdate _ r).material = _
  exact applyGeometryUpdate_material _ r

theorem updateInfiniteGeometry_geometry (e : PlaneEntity) :
    (updateInfiniteGeometry e).geometry = .infinitePlane := by
  unfold updateInfiniteGeometry
  cases hg : e.geometry <;> simp [hg]

theorem processedEntity_geometry_horizontal (prev : Option PlaneEntity)
    (r : PlaneReport) (p : Pose) (ho : r.orientation = .horizontal) :
    (processedEntity prev r p).geometry = .infinitePlane := by
  unfold processedEntity applyGeometryUpdate
  rw [ho]
  exact updateInfiniteGeometry_geometry _

theorem processPlane_material_persist (s : AppState) (r : PlaneReport) (i : ℕ)
    (e : PlaneEntity) (he : lookupPlane s.planes i = some e) :
    ∃ e2, lookupPlane (processPlane s r).planes i = some e2 ∧ e2.material = e.material := by
  by_cases hid : r.id = i
  · subst hid
    cases hp : r.pose with
    | none => exact ⟨e, by unfold processPlane; rw [hp]; exact he, rfl⟩
    | some p =>
      refine ⟨processedEntity (some e) r p, ?_, ?_⟩
      · rw [processPlane_lookup_self s r p hp, he]
      · rw [processedEntity_material]; rfl
  · exact ⟨e, by rw [(processPlane_lookup_ne s r i hid).1]; exact he, rfl⟩

theorem foldl_material_persist (rs : List PlaneReport) :
    ∀ (s : AppState) (i : ℕ) (e : PlaneEntity), lookupPlane s.planes i = some e →
    ∃ e2, lookupPlane (rs.foldl processPlane s).planes i = some e2 ∧
      e2.material = e.material := by
  induction rs with
  | nil => intro s i e he; exact ⟨e, he, rfl⟩
  | cons a t ih =>
    intro s i e he
    obtain ⟨e1, h1, hm1⟩ := processPlane_material_persist s a i e he
    obtain ⟨e2, h2, hm2⟩ := ih (processPlane s a) i e1 h1
    exact ⟨e2, by rw [List.foldl_cons]; exact h2, hm2.trans hm1⟩

/-! Reachability invariant used for the hit-test / reticle coupling: while no
hit-test source is available the reticle has stayed invisible. -/

theorem advanceFrame_noSource_invisible (s : AppState) (f : XRFrameInput)
    (h : s.hitTestSource = false → s.reticle.visible = false) :
    (advanceFrame s f).hitTestSource = false →
    (advanceFrame s f).reticle.visible = false := by
  intro hsrc
  unfold advanceFrame at *
  rw [(updatePlanes_frame_fields f _).2.1, handleHitTest_source_eq] at hsrc
  rw [(updatePlanes_frame_fields f _).1,
    handleHitTest_reticle_nosrc s f hsrc]
  have hfalse : s.hitTestSource = false := by
    cases hb : s.hitTestSource
    · rfl
    · rw [hb] at hsrc; simp at hsrc
  exact h hfalse

theorem runFrames_noSource_invisible (fs : List XRFrameInput) :
    ∀ s : AppState, (s.hitTestSource = false → s.reticle.visible = false) →
    ((runFrames s fs).hitTestSource = false → (runFrames s fs).reticle.visible = false) := by
  induction fs with
  | nil => intro s h; exact h
  | cons f fs ih =>
    intro s h
    simp only [runFrames, List.foldl_cons]
    exact ih (advanceFrame s f) (advanceFrame_noSource_invisible s f h)

theorem onSelect_items_extend (s : AppState) (m : Mode) :
    ∃ tail, (onSelect s m).items = s.items ++ tail := by
  unfold onSelect
  by_cases h : s.reticle.visible = true
  · exact ⟨[PlacedObject.mk s.reticle.matrix.pos s.reticle.matrix.rot (placedColor m)],
      by simp [h]⟩
  · exact ⟨[], by simp [h]⟩

theorem filter_isNone_nil (l : List ℕ) (pl : List (ℕ × PlaneEntity))
    (h : ∀ i ∈ l, (lookupPlane pl i).isSome = true) :
    (l.filter fun i => (lookupPlane pl i).isNone) = [] := by
  induction l with
  | nil => rfl
  | cons a t ih =>
    have ha := h a (by simp)
    have ht := ih fun i hi => h i (by simp [hi])
    rw [List.filter_cons, ht]
    cases hx : lookupPlane pl a with
    | none => rw [hx] at ha; simp at ha
    | some e => simp [hx]

/-! Claim theorems. -/

/-- C3 (confirmed): for every hit pose, `classifyPose` returns `Horizontal`
exactly when the absolute value of the vertical component of the pose's
rotated up-vector exceeds 0.5, and `Vertical` otherwise; in particular it is
`Horizontal` for an up-component of 0.51 and `Vertical` for exactly 0.5 and
for 0.49 (the boundary 0.5 is exclusive on the horizontal side). -/
theorem classifyPose_boundary :
    (∀ p : Pose, classifyPose p = .Horizontal ↔ 1/2 < |upY p|) ∧
    classifyPose poseUp051 = .Horizontal ∧
    classifyPose poseUp050 = .Vertical ∧
    classifyPose poseUp049 = .Vertical := by
  refine ⟨fun p => ?_, ?_, ?_, ?_⟩
  · unfold classifyPose
    by_cases h : (1 : ℚ)/2 < |upY p| <;> simp [h]
  · have h51 : upY poseUp051 = 51/100 := by
      norm_num [upY, upVector, applyMat3, poseUp051]
    unfold classifyPose
    rw [h51, if_pos]
    rw [abs_of_pos (by norm_num : (0:ℚ) < 51/100)]
    norm_num
  · have h50 : upY poseUp050 = 1/2 := by
      norm_num [upY, upVector, applyMat3, poseUp050]
    unfold classifyPose
    rw [h50, if_neg]
    rw [abs_of_pos (by norm_num : (0:ℚ) < 1/2)]
    norm_num
  · have h49 : upY poseUp049 = 49/100 := by
      norm_num [upY, upVector, applyMat3, poseUp049]
    unfold classifyPose
    rw [h49, if_neg]
    rw [abs_of_pos (by norm_num : (0:ℚ) < 49/100)]
    norm_num

/-- C4 (confirmed): invoking the bounded-mode geometry update twice with the
same change-stamp and the same polygon regenerates the mesh at most once:
the second invocation returns the state of the first unchanged (hence
byte-identical position and UV buffers and no further dispose-and-rebuild
side effect), and the pair performs at most one rebuild.  This holds for the
wall branch of the first variant's `updatePlanes` and for the grid variant's
`updatePlanes` in both of its UV modes. -/
theorem boundedRebuild_idempotent (e : PlaneEntity) (stamp : ℤ) (poly : List PolyPoint) :
    updateBoundedGeometry (updateBoundedGeometry e stamp poly) stamp poly
      = updateBoundedGeometry e stamp poly ∧
    (updateBoundedGeometry e stamp poly).rebuildCount ≤ e.rebuildCount + 1 ∧
    ∀ isH : Bool,
      updatePlaneGeometryGrid (updatePlaneGeometryGrid e isH stamp poly) isH stamp poly
        = updatePlaneGeometryGrid e isH stamp poly ∧
      (updatePlaneGeometryGrid e isH stamp poly).rebuildCount ≤ e.rebuildCount + 1 := by
  unfold updateBoundedGeometry updatePlaneGeometryGrid
  by_cases h : stamp ≠ e.lastChangedTime <;> simp [h]

/-- C5 counterexample: a malformed two-point boundary polygon arriving with
a fresh change-stamp is not rejected — the synthesizer rebuilds anyway: the
previous (well-formed) mesh is replaced by the degenerate geometry built
from the bad polygon, the stamp is recorded, and a dispose-and-rebuild side
effect occurs, contradicting "the plane entity retains its previous mesh
unchanged". -/
theorem malformed_polygon_rebuild_not_rejected :
    badPoly.length < 3 ∧
    (updateBoundedGeometry entWall 5 badPoly).geometry ≠ entWall.geometry ∧
    (updateBoundedGeometry entWall 5 badPoly).lastChangedTime = 5 ∧
    (updateBoundedGeometry entWall 5 badPoly).rebuildCount = entWall.rebuildCount + 1 := by
  exact ⟨by decide, by decide, by decide, by decide⟩

/-- C5 (corrected, amended claim): the geometry synthesizer performs no
validation of the boundary polygon: whenever the reported change-stamp
differs from the last-applied one it rebuilds unconditionally from the
polygon as supplied (a polygon with fewer than 3 points simply yields its
degenerate geometry), records the new stamp, and replaces the previous mesh;
the frame advance itself never fails (the update is a total function) and
the material is untouched. -/
theorem rebuild_unconditional_on_stamp_change (e : PlaneEntity) (stamp : ℤ)
    (poly : List PolyPoint) (h : stamp ≠ e.lastChangedTime) :
    (updateBoundedGeometry e stamp poly).geometry
      = .shape (boundedPositions poly) (wallUVs poly) ∧
    (updateBoundedGeometry e stamp poly).lastChangedTime = stamp ∧
    (updateBoundedGeometry e stamp poly).rebuildCount = e.rebuildCount + 1 ∧
    (updateBoundedGeometry e stamp poly).material = e.material := by
  unfold updateBoundedGeometry
  simp [h]

/-- Witness for the amended C5 claim at a concrete malformed input. -/
theorem rebuild_unconditional_on_stamp_change_witness :
    ((5 : ℤ) ≠ entWall.lastChangedTime) ∧
    (updateBoundedGeometry entWall 5 badPoly).geometry
      = .shape (boundedPositions badPoly) (wallUVs badPoly) :=
  ⟨by decide, (rebuild_unconditional_on_stamp_change entWall 5 badPoly (by decide)).1⟩

/-- C7 (confirmed): a selection event while the reticle is visible creates
exactly one placed object, whose recorded position and orientation are
exactly (hence within tolerance 1e-6) the translation and rotation of the
reticle's pose matrix at that frame; and no core operation (frame advance,
further selection, session end) ever mutates or removes an existing placed
object. -/
theorem placement_records_reticle_pose (s : AppState) (m : Mode)
    (h : s.reticle.visible = true) :
    (onSelect s m).items = s.items ++
      [{ position := s.reticle.matrix.pos, rotation := s.reticle.matrix.rot,
         color := placedColor m }] ∧
    (∀ f, (advanceFrame (onSelect s m) f).items = (onSelect s m).items) ∧
    (∀ m2, ∃ tail, (onSelect (onSelect s m) m2).items = (onSelect s m).items ++ tail) ∧
    (sessionEnd (onSelect s m)).items = (onSelect s m).items := by
  refine ⟨by simp [onSelect, h], ?_, fun m2 => onSelect_items_extend _ m2, rfl⟩
  intro f
  exact (updatePlanes_frame_fields f _).2.2.2.trans (handleHitTest_plane_fields _ f).2.2

/-- Witness for C7: the placement at a concrete visible-reticle state. -/
theorem placement_records_reticle_pose_witness :
    (onSelect sVisible Mode.Tile).items = sVisible.items ++
      [{ position := sVisible.reticle.matrix.pos,
         rotation := sVisible.reticle.matrix.rot,
         color := placedColor Mode.Tile }] :=
  (placement_records_reticle_pose sVisible Mode.Tile rfl).1

/-- C8 (confirmed): a selection event while the reticle is invisible leaves
the whole core state unchanged — no placed object is created, nothing is
added to the scene and no error is raised (the handler is a total function
returning the state unchanged). -/
theorem select_invisible_noop (s : AppState) (m : Mode)
    (h : s.reticle.visible = false) : onSelect s m = s := by
  simp [onSelect, h]

/-- Witness for C8 at the initial (invisible-reticle) state. -/
theorem select_invisible_noop_witness : onSelect initState .Tile = initState :=
  select_invisible_noop initState .Tile rfl

/-- C1 counterexample: after one frame advance reporting two horizontal
planes — identity 0 posed at height 0 and identity 1 posed lower, at height
-1 — more than one plane entity carries the infinite 1000x1000 floor
geometry: both do, and in particular the plane at height 0, which is not the
one with the minimum world vertical coordinate, is infinite.  This refutes
"at most one `isInfinite`, and it is always the minimum-height horizontal
plane" for two or more simultaneously tracked horizontal planes. -/
theorem two_horizontal_planes_both_infinite :
    1 < (sTwo.planes.filter fun q => decide (q.2.geometry = Geometry.infinitePlane)).length ∧
    (lookupPlane sTwo.planes 0).map PlaneEntity.geometry = some .infinitePlane ∧
    (lookupPlane sTwo.planes 1).map PlaneEntity.geometry = some .infinitePlane ∧
    (lookupPlane sTwo.planes 0).map (fun e => e.matrix.pos.y) = some 0 ∧
    (lookupPlane sTwo.planes 1).map (fun e => e.matrix.pos.y) = some (-1) := by
  exact ⟨by decide, by decide, by decide, by decide, by decide⟩

/-- C1 (corrected, amended claim): after every frame advance, every plane
reported with orientation horizontal (and a retrievable pose) has the
infinite 1000x1000 floor geometry, independently of its world vertical
coordinate; there is no minimum-height promotion in the code, so with N
simultaneously tracked horizontal planes all N entities are infinite (the
original "at most one" consequently holds only for N = 0 and N = 1). -/
theorem horizontal_plane_geometry_infinite (s : AppState) (f : XRFrameInput)
    (rs : List PlaneReport) (r : PlaneReport) (p : Pose)
    (hdp : f.detectedPlanes = some rs) (hnd : (rs.map PlaneReport.id).Nodup)
    (hr : r ∈ rs) (ho : r.orientation = .horizontal) (hp : r.pose = some p) :
    (lookupPlane (advanceFrame s f).planes r.id).map PlaneEntity.geometry
      = some .infinitePlane := by
  unfold advanceFrame updatePlanes
  rw [hdp, foldl_lookup_report rs _ r p hnd hr hp]
  simp [processedEntity_geometry_horizontal _ r p ho]

/-- Witness for the amended C1 claim: the higher of two reported horizontal
planes ends the frame with the infinite geometry. -/
theorem horizontal_plane_geometry_infinite_witness :
    (lookupPlane (advanceFrame initState frameTwoHorizontal).planes rH0.id).map
      PlaneEntity.geometry = some .infinitePlane :=
  horizontal_plane_geometry_infinite initState frameTwoHorizontal [rH0, rH1] rH0
    (poseAt 0) rfl (by decide) (List.mem_cons_self _ _) rfl rfl

/-- C2 counterexample: a plane tracked at frame K (identity 0, reported by
`frameOnePlane`) that is absent from the detected-planes report at frame K+1
(`frameEmptyReport`) is NOT removed: after frame K+1 its entity is still in
the plane map, its mesh identity is still attached to the scene, and the
plane map is unchanged — no detach and no resource release happens. -/
theorem unreported_plane_not_removed :
    (lookupPlane (advanceFrame sOne frameEmptyReport).planes 0).isSome = true ∧
    0 ∈ (advanceFrame sOne frameEmptyReport).scenePlaneIds ∧
    (advanceFrame sOne frameEmptyReport).planes = sOne.planes := by
  exact ⟨by decide, by decide, rfl⟩

/-- C2 (corrected, amended claim): a plane identity absent from the sensing
subsystem's report for a frame keeps its entity unchanged in the plane map
and its mesh attached to the scene through that frame's advance; plane
entities are removed only by the session-end teardown, never by a frame
advance. -/
theorem unreported_plane_persists (s : AppState) (f : XRFrameInput) (i : ℕ)
    (h : ∀ r ∈ f.detectedPlanes.getD [], r.id ≠ i) :
    lookupPlane (advanceFrame s f).planes i = lookupPlane s.planes i ∧
    ((i ∈ (advanceFrame s f).scenePlaneIds) ↔ i ∈ s.scenePlaneIds) := by
  unfold advanceFrame updatePlanes
  have hply := (handleHitTest_plane_fields s f).1
  have hsc := (handleHitTest_plane_fields s f).2.1
  cases hd : f.detectedPlanes with
  | none => rw [hply, hsc]; exact ⟨rfl, Iff.rfl⟩
  | some rs =>
    simp only [hd, Option.getD_some] at h
    have hfold := foldl_lookup_not_mem rs (handleHitTest s f) i h
    rw [hply, hsc] at hfold
    exact hfold

/-- Witness for the amended C2 claim: identity 0 persists through an
empty-report frame. -/
theorem unreported_plane_persists_witness :
    lookupPlane (advanceFrame sOne frameEmptyReport).planes 0
      = lookupPlane sOne.planes 0 :=
  (unreported_plane_persists sOne frameEmptyReport 0 (by decide)).1

/-- C9 (confirmed): the session-end handler synchronously tears the core
down — the plane map becomes empty (no identity resolves any more), every
plane mesh held in the map is removed from the scene, the reticle is hidden
and the hit-test source and its request flag are reset — so the state any
subsequent session's first frame starts from carries none of the old
session's planes.  The hypothesis (every scene-attached plane mesh is one
held in the map) is an invariant of the model, since meshes are added to the
scene exactly when inserted into the map. -/
theorem session_end_teardown (s : AppState)
    (h : ∀ i ∈ s.scenePlaneIds, (lookupPlane s.planes i).isSome = true) :
    (sessionEnd s).planes = [] ∧
    (sessionEnd s).scenePlaneIds = [] ∧
    (sessionEnd s).reticle.visible = false ∧
    (sessionEnd s).hitTestSource = false ∧
    (sessionEnd s).hitTestSourceRequested = false ∧
    (∀ i, lookupPlane (sessionEnd s).planes i = none) := by
  exact ⟨rfl, filter_isNone_nil s.scenePlaneIds s.planes h, rfl, rfl, rfl, fun i => rfl⟩

/-- Witness for C9 at the concrete two-plane state. -/
theorem session_end_teardown_witness :
    (sessionEnd sTwo).planes = [] ∧
    (sessionEnd sTwo).scenePlaneIds = [] ∧
    (sessionEnd sTwo).reticle.visible = false ∧
    (sessionEnd sTwo).hitTestSource = false ∧
    (sessionEnd sTwo).hitTestSourceRequested = false := by
  have T := session_end_teardown sTwo (by decide)
  exact ⟨T.1, T.2.1, T.2.2.1, T.2.2.2.1, T.2.2.2.2.1⟩

/-- C10 (confirmed): a plane entity's material is fixed at creation from the
orientation reported at the frame the plane is first observed, and no later
frame advance ever modifies it — even one that reports a different
orientation or a changed change-stamp; geometry regeneration replaces only
the entity's geometry, never its material. -/
theorem plane_material_fixed (s : AppState) (f : XRFrameInput) (i : ℕ) :
    (∀ e e2, lookupPlane s.planes i = some e →
      lookupPlane (advanceFrame s f).planes i = some e2 → e2.material = e.material) ∧
    (∀ rs r p, f.detectedPlanes = some rs → (rs.map PlaneReport.id).Nodup →
      r ∈ rs → r.id = i → r.pose = some p → lookupPlane s.planes i = none →
      (lookupPlane (advanceFrame s f).planes i).map PlaneEntity.material
        = some (materialFor r.orientation)) := by
  have hply := (handleHitTest_plane_fields s f).1
  constructor
  · intro e e2 he h2
    unfold advanceFrame updatePlanes at h2
    cases hd : f.detectedPlanes with
    | none =>
      rw [hd] at h2
      rw [hply, he] at h2
      rw [Option.some.inj h2]
    | some rs =>
      rw [hd] at h2
      obtain ⟨e3, h3, hm3⟩ :=
        foldl_material_persist rs (handleHitTest s f) i e (by rw [hply]; exact he)
      rw [h3] at h2
      rw [← Option.some.inj h2]
      exact hm3
  · intro rs r p hdp hnd hr hid hp hnone
    subst hid
    unfold advanceFrame updatePlanes
    rw [hdp, foldl_lookup_report rs _ r p hnd hr hp, hply, hnone]
    simp [processedEntity_material]
    rfl

/-- Witness for C10: the entity created horizontal (floor material) in one
frame and re-reported vertical with a fresh change-stamp in the next keeps
its material through the geometry rebuild. -/
theorem plane_material_fixed_witness : entAfter.material = entBefore.material :=
  (plane_material_fixed sOne frameVerticalRe 0).1 entBefore entAfter rfl rfl

/-- C6 (confirmed): over any session run started with no hit-test source and
an invisible reticle, after each frame advance the reticle is visible if and
only if a hit-test result exists for that frame (a source is available —
already held or just arrived — and the frame's result list is non-empty);
when a result exists the reticle's pose is set from the top-ranked result
and its classification colour is recomputed from `classifyPose`; when no
result exists the reticle is invisible. -/
theorem reticle_visible_iff_hit (s : AppState) (fs : List XRFrameInput)
    (f : XRFrameInput)
    (hstart : s.hitTestSource = false → s.reticle.visible = false) :
    ((advanceFrame (runFrames s fs) f).reticle.visible = true ↔
      ((runFrames s fs).hitTestSource
        || ((runFrames s fs).hitTestSourceRequested && f.sourceArrives)) = true ∧
      f.hits ≠ []) ∧
    (∀ p ps, f.hits = p :: ps →
      ((runFrames s fs).hitTestSource
        || ((runFrames s fs).hitTestSourceRequested && f.sourceArrives)) = true →
      (advanceFrame (runFrames s fs) f).reticle.matrix = p ∧
      (advanceFrame (runFrames s fs) f).reticle.color
        = reticleColorFor (classifyPose p)) := by
  have hK := runFrames_noSource_invisible fs s hstart
  have hret : (advanceFrame (runFrames s fs) f).reticle
      = (handleHitTest (runFrames s fs) f).reticle :=
    (updatePlanes_frame_fields f _).1
  by_cases hsrc : ((runFrames s fs).hitTestSource
      || ((runFrames s fs).hitTestSourceRequested && f.sourceArrives)) = true
  · cases hh : f.hits with
    | nil =>
      rw [hret, handleHitTest_reticle_nohit _ f hh hsrc]
      refine ⟨?_, ?_⟩
      · constructor
        · intro hfalse; cases hfalse
        · rintro ⟨-, hne⟩; exact absurd rfl hne
      · intro p ps hps
        cases hps
    | cons p ps =>
      rw [hret, handleHitTest_reticle_hit _ f p ps hh hsrc]
      refine ⟨?_, ?_⟩
      · exact ⟨fun _ => ⟨hsrc, List.cons_ne_nil p ps⟩, fun _ => rfl⟩
      · intro q qs hq _
        cases hq
        exact ⟨rfl, rfl⟩
  · have hsrcf : ((runFrames s fs).hitTestSource
        || ((runFrames s fs).hitTestSourceRequested && f.sourceArrives)) = false :=
      Bool.eq_false_iff.mpr hsrc
    rw [hret, handleHitTest_reticle_nosrc _ f hsrcf]
    have hnos : (runFrames s fs).hitTestSource = false := by
      cases hb : (runFrames s fs).hitTestSource
      · rfl
      · rw [hb] at hsrcf; simp at hsrcf
    rw [hK hnos]
    refine ⟨?_, ?_⟩
    · constructor
      · intro hfalse; cases hfalse
      · rintro ⟨hs2, -⟩; exact absurd hs2 hsrc
    · intro p ps _ hs2
      exact absurd hs2 hsrc

/-- Witness for C6: a session whose first frame issues the source request
and whose second frame has the source response and one level hit — the
reticle becomes visible exactly at that second frame, posed at the hit. -/
theorem reticle_visible_iff_hit_witness :
    (advanceFrame (runFrames initState [frameNoData]) frameWithHit).reticle.visible
      = true ∧
    (advanceFrame (runFrames initState [frameNoData]) frameWithHit).reticle.matrix
      = poseAt 0 := by
  have T := reticle_visible_iff_hit initState [frameNoData] frameWithHit (fun _ => rfl)
  have hsrc : ((runFrames initState [frameNoData]).hitTestSource
      || ((runFrames initState [frameNoData]).hitTestSourceRequested
        && frameWithHit.sourceArrives)) = true := by decide
  exact ⟨T.1.mpr ⟨hsrc, by decide⟩, (T.2 (poseAt 0) [] rfl hsrc).1⟩

end AR
